import Mathlib

/-!
Verification development for the Socialens repository (three Python scripts:
`Astradb.py`, `DbConnect.py`, `app2.py`).  The scripts are shallowly embedded:
pure data manipulation becomes Lean functions over lists, external API calls
(database client, collection creation, bulk insert, Streamlit output) become
entries of an explicit effect trace, and Python exceptions become `Except`
results.  Numeric pandas columns are modelled over `ℚ`.
-/

namespace Socialens

/-! ## Dictionaries (Python `dict` built from a pandas row) -/

/-- A Python dict with string keys and string-rendered values, as an ordered
association list without duplicate keys (insertion order is kept, as in
Python). -/
abbrev Dict := List (String × String)

/-- Semantics of the Python update `{**d, k: v}`: if `k` is already a key of
`d` its value is replaced in place, otherwise `(k, v)` is appended. -/
def setKey (d : Dict) (k v : String) : Dict :=
  match d.lookup k with
  | none => d ++ [(k, v)]
  | some _ => d.map (fun kv => if kv.1 = k then (k, v) else kv)

/-! ## Effects and errors -/

/-- Observable effects of the scripts: console prints, Streamlit error boxes,
and the external API calls made through the astrapy SDK. -/
inductive Effect where
  | printMsg (s : String)
  | stError (s : String)
  | connectClient (token : String)
  | getDatabase (endpoint : String)
  | newCollection (name metric provider modelName : String)
  | insertMany (docs : List Dict)
  deriving DecidableEq

/-- Python exceptions that the scripts can propagate. -/
inductive PyError where
  | runtimeError (msg : String)
  | externalError (msg : String)
  deriving DecidableEq

def isConnectEff : Effect → Bool
  | Effect.connectClient _ => true
  | _ => false

def isGetDbEff : Effect → Bool
  | Effect.getDatabase _ => true
  | _ => false

def isCreateEff : Effect → Bool
  | Effect.newCollection _ _ _ _ => true
  | _ => false

def isInsertEff : Effect → Bool
  | Effect.insertMany _ => true
  | _ => false

/-- `true` exactly on a propagating `RuntimeError` result. -/
def isRuntimeErr {α : Type} : Except PyError α → Bool
  | Except.error (PyError.runtimeError _) => true
  | _ => false

/-- `true` exactly on a propagating exception (any `Except.error`). -/
def isExceptErr {α : Type} : Except PyError α → Bool
  | Except.error _ => true
  | _ => false

/-! ## `Astradb.py` — document construction and upload -/

/-- One step of the list comprehension in `upload_csv_data_to_db`: the document
built from one dataframe row, `{**row.to_dict(), "$vectorize": f"summary:
{row['topic']} | hashtags: {row['hashtags_used']}"}`.  A missing column raises
a `KeyError`, modelled as `none`. -/
def buildDocument (row : Dict) : Option Dict :=
  match row.lookup "topic", row.lookup "hashtags_used" with
  | some t, some h =>
      some (setKey row "$vectorize" ("summary: " ++ t ++ " | hashtags: " ++ h))
  | _, _ => none

/-- The full list comprehension over `df.iterrows()`. -/
def buildDocuments : List Dict → Option (List Dict)
  | [] => some []
  | row :: rows =>
      match buildDocument row, buildDocuments rows with
      | some d, some ds => some (d :: ds)
      | _, _ => none

/-- `upload_csv_data_to_db` with the parsed CSV (`pd.read_csv` result) passed
in as the list of rows: builds one document per row, then performs a single
`insert_many` with all of them and prints the inserted count. -/
def uploadCsvDataToDb (df : List Dict) : Except PyError Unit × List Effect :=
  match buildDocuments df with
  | none => (Except.error (PyError.externalError "KeyError"), [])
  | some docs =>
      (Except.ok (),
       [Effect.insertMany docs,
        Effect.printMsg
          ("Inserted " ++ toString docs.length ++ " items into the collection.")])

theorem buildDocuments_length (df : List Dict) (docs : List Dict)
    (h : buildDocuments df = some docs) : docs.length = df.length := by
  induction df generalizing docs with
  | nil => simp [buildDocuments] at h; simp [← h]
  | cons row rows ih =>
      simp only [buildDocuments] at h
      cases hd : buildDocument row with
      | none => rw [hd] at h; exact absurd h (by simp)
      | some d =>
          cases hds : buildDocuments rows with
          | none => rw [hd, hds] at h; exact absurd h (by simp)
          | some ds =>
              rw [hd, hds] at h
              cases h
              simp [ih ds hds]

/-! ## Connecting to the database (`Astradb.py` and `DbConnect.py`) -/

/-- The process environment as seen through `os.environ.get`. -/
structure Env where
  apiEndpoint : Option String
  appToken : Option String
  deriving DecidableEq

/-- Endpoint literal hard-coded in `Astradb.py`. -/
def astradbEndpoint : String :=
  "https://333fabb7-be16-40b2-8eb9-6ddcfe9ed97f-us-east-2.apps.astra.datastax.com"

/-- Token literal hard-coded in `Astradb.py` (it begins with a stray `=`). -/
def astradbToken : String :=
  "=AstraCS:vykZGONKzcnqgOdmZdAtdHsJ:c2015367839f147873bc061939cae8430d40adc31d94f23a6d510efcc4c71ed8"

/-- Endpoint literal hard-coded in `DbConnect.py` (same URL as `Astradb.py`). -/
def dbConnectEndpoint : String :=
  "https://333fabb7-be16-40b2-8eb9-6ddcfe9ed97f-us-east-2.apps.astra.datastax.com"

/-- Token literal hard-coded in `DbConnect.py` (no leading `=`). -/
def dbConnectToken : String :=
  "AstraCS:vykZGONKzcnqgOdmZdAtdHsJ:c2015367839f147873bc061939cae8430d40adc31d94f23a6d510efcc4c71ed8"

def envVarsMsg : String :=
  "Environment variables ASTRA_DB_API_ENDPOINT and ASTRA_DB_APPLICATION_TOKEN must be defined"

/-- `connect_to_database` from `Astradb.py`.  The environment is a parameter
only to express that the function ignores it: the `os.environ.get` lines are
commented out in the source and literals are used instead.  `getDbFails` is
the external-world oracle: `some e` means `client.get_database` raises an
exception rendering as `e`; `dbName` is what `database.info().name` returns.
The `try` block prints the connection message on success, and on failure
prints the error and re-raises. -/
def astradbConnect (_env : Env) (getDbFails : Option String) (dbName : String) :
    Except PyError String × List Effect :=
  let endpoint := astradbEndpoint
  let token := astradbToken
  if token = "" ∨ endpoint = "" then
    (Except.error (PyError.runtimeError envVarsMsg), [])
  else
    match getDbFails with
    | some e =>
        (Except.error (PyError.externalError e),
         [Effect.connectClient token, Effect.getDatabase endpoint,
          Effect.printMsg ("Error connecting to database: " ++ e)])
    | none =>
        (Except.ok endpoint,
         [Effect.connectClient token, Effect.getDatabase endpoint,
          Effect.printMsg ("Connected to database: " ++ dbName)])

/-- `connect_to_database` from `DbConnect.py`: same shape, but there is no
`try`/`except`, so a failing `get_database` propagates with no print. -/
def dbConnectConnect (_env : Env) (getDbFails : Option String) (dbName : String) :
    Except PyError String × List Effect :=
  let endpoint := dbConnectEndpoint
  let token := dbConnectToken
  if token = "" ∨ endpoint = "" then
    (Except.error (PyError.runtimeError envVarsMsg), [])
  else
    match getDbFails with
    | some e =>
        (Except.error (PyError.externalError e),
         [Effect.connectClient token, Effect.getDatabase endpoint])
    | none =>
        (Except.ok endpoint,
         [Effect.connectClient token, Effect.getDatabase endpoint,
          Effect.printMsg ("Connected to database " ++ dbName)])

/-- `create_collection` from `Astradb.py`: one `database.create_collection`
call with cosine metric and the nvidia `NV-Embed-QA` vectorize service, then a
print; the created collection (modelled by its name) is returned. -/
def createCollection (collectionName : String) : String × List Effect :=
  (collectionName,
   [Effect.newCollection collectionName "cosine" "nvidia" "NV-Embed-QA",
    Effect.printMsg ("Created collection " ++ collectionName)])

/-- `main` from `Astradb.py`: connect, create the collection
`social_media_collection`, upload the CSV rows.  A propagating exception
aborts the remaining steps. -/
def astradbMain (getDbFails : Option String) (dbName : String) (df : List Dict) :
    Except PyError Unit × List Effect :=
  match astradbConnect ⟨none, none⟩ getDbFails dbName with
  | (Except.error e, tr) => (Except.error e, tr)
  | (Except.ok _db, tr) =>
      let c := createCollection "social_media_collection"
      let u := uploadCsvDataToDb df
      (u.1, tr ++ c.2 ++ u.2)

/-- The module-level behaviour of `DbConnect.py`: it only calls
`connect_to_database()` (no collection creation, no insert). -/
def dbConnectScript (getDbFails : Option String) (dbName : String) :
    Except PyError String × List Effect :=
  dbConnectConnect ⟨none, none⟩ getDbFails dbName

/-! ## `app2.py` — `generate_analysis` -/

/-- `PostAnalyzer.generate_analysis`, abstracted over the LLM chain call:
`llmFails = some e` means `chain.invoke` raises an exception rendering as `e`,
otherwise `response` is the content the chain returns.  On failure the code
shows the error with `st.error` and returns `None` — the exception does not
propagate, so the result is `Except.ok none`. -/
def generateAnalysis (llmFails : Option String) (response : String) :
    Except PyError (Option String) × List Effect :=
  match llmFails with
  | some e =>
      (Except.ok none, [Effect.stError ("Error generating analysis: " ++ e)])
  | none => (Except.ok (some response), [])

/-! ## `app2.py` — data model and post metrics -/

/-- A row of `social_media_engagement.csv` as loaded by `PostAnalyzer`;
numeric columns are modelled over `ℚ`. -/
structure Post where
  post_id : String
  post_type : String
  topic : String
  hashtags_used : String
  audio_type : String
  likes : ℚ
  comments : ℚ
  shares : ℚ
  saves : ℚ
  reach : ℚ
  engagement_rate : ℚ
  deriving DecidableEq

/-- The six entries of `numeric_columns` in `get_post_metrics`. -/
inductive Metric where
  | likes
  | comments
  | shares
  | saves
  | reach
  | engagement_rate
  deriving DecidableEq

def Metric.get : Metric → Post → ℚ
  | Metric.likes, p => p.likes
  | Metric.comments, p => p.comments
  | Metric.shares, p => p.shares
  | Metric.saves, p => p.saves
  | Metric.reach, p => p.reach
  | Metric.engagement_rate, p => p.engagement_rate

/-- The order in which `numeric_columns` lists the columns. -/
def numericColumns : List Metric :=
  [Metric.likes, Metric.comments, Metric.shares, Metric.saves,
   Metric.reach, Metric.engagement_rate]

/-- Insert into a sorted list (ascending). -/
def insertSorted (x : ℚ) : List ℚ → List ℚ
  | [] => [x]
  | y :: ys => if x ≤ y then x :: y :: ys else y :: insertSorted x ys

/-- Ascending insertion sort, used to define the median. -/
def sortQ (l : List ℚ) : List ℚ := l.foldr insertSorted []

/-- Arithmetic mean as computed by pandas `mean` (sum over count). -/
def meanQ (l : List ℚ) : ℚ := l.sum / l.length

/-- pandas `median`: middle element of the sorted column for odd length, the
average of the two middle elements for even length. -/
def medianQ (l : List ℚ) : ℚ :=
  let s := sortQ l
  let n := l.length
  if n % 2 = 1 then s.getD (n / 2) 0
  else (s.getD (n / 2 - 1) 0 + s.getD (n / 2) 0) / 2

def minQ (l : List ℚ) : ℚ := (l.min?).getD 0

def maxQ (l : List ℚ) : ℚ := (l.max?).getD 0

/-- The `['mean', 'median', 'min', 'max']` aggregate of one numeric column. -/
structure Stats where
  mean : ℚ
  median : ℚ
  min : ℚ
  max : ℚ
  deriving DecidableEq

/-- The four aggregates of `agg(['mean', 'median', 'min', 'max'])` for one
column. -/
def statsOf (l : List ℚ) : Stats :=
  ⟨meanQ l, medianQ l, minQ l, maxQ l⟩

/-- Python's `round` (banker's rounding, half to even) to an integer. -/
def roundHalfEven (q : ℚ) : ℤ :=
  let f := ⌊q⌋
  let r := q - f
  if r < 1 / 2 then f
  else if 1 / 2 < r then f + 1
  else if f % 2 = 0 then f else f + 1

/-- Python's `round(x, 2)`. -/
def pyRound2 (q : ℚ) : ℚ := ((roundHalfEven (q * 100) : ℤ) : ℚ) / 100

/-- The list of characters of `s` before its first occurrence of `" ("`
(all of `s` when there is none): Python's `s.split(" (")[0]`. -/
def beforeParen : List Char → List Char
  | [] => []
  | c :: rest =>
      if c = ' ' ∧ rest.head? = some '(' then []
      else c :: beforeParen rest

/-- Whether the character list contains `" ("` as a substring. -/
def hasSpaceParen : List Char → Bool
  | [] => false
  | c :: rest =>
      if c = ' ' ∧ rest.head? = some '(' then true
      else hasSpaceParen rest

/-- `post_id.split(" (")[0]` on the selected display string. -/
def actualId (s : String) : String := ⟨beforeParen s.data⟩

/-- The display string `f"{pid} ({row['topic']})"` built by
`get_available_posts` for one row. -/
def displayString (r : Post) : String :=
  r.post_id ++ " (" ++ r.topic ++ ")"

/-- `get_available_posts` with a post type given (the dashboard always passes
one): the display strings of the rows of that type, in dataframe order. -/
def getAvailablePosts (df : List Post) (postType : String) : List String :=
  (df.filter (fun r => r.post_type == postType)).map displayString

/-- `get_post_metrics`: parse the actual post id out of the display string,
filter the dataframe to the selected type, look the post up inside that
filtered frame; `(None, None, None)` (here `none`) when no row matches,
otherwise the first matching row together with the per-column aggregates over
the type-filtered frame and the rounded percentage-vs-mean comparison. -/
def getPostMetrics (df : List Post) (postId postType : String) :
    Option (Post × List (Metric × Stats) × List (Metric × ℚ)) :=
  let typeStats := df.filter (fun r => r.post_type == postType)
  match typeStats.filter (fun r => r.post_id == actualId postId) with
  | [] => none
  | post :: _ =>
      let stats := numericColumns.map (fun m => (m, statsOf (typeStats.map m.get)))
      let performance := numericColumns.map (fun m =>
        (m, pyRound2 ((m.get post / (statsOf (typeStats.map m.get)).mean - 1) * 100)))
      some (post, stats, performance)

/-- One numeric column of the type-filtered dataframe: the values of metric
`m` over all rows whose `post_type` equals `ptype`. -/
def column (df : List Post) (ptype : String) (m : Metric) : List ℚ :=
  (df.filter (fun r => r.post_type == ptype)).map m.get

/-! ## Sample data used by witnesses -/

def sampleRow : Dict := [("post_id", "P1"), ("topic", "ai"), ("hashtags_used", "#x")]

def sampleRow2 : Dict := [("post_id", "P2"), ("topic", "ml"), ("hashtags_used", "#y")]

def sampleCsv : List Dict := [sampleRow, sampleRow2]

def sampleVecDocs : List Dict :=
  [sampleRow ++ [("$vectorize", "summary: ai | hashtags: #x")],
   sampleRow2 ++ [("$vectorize", "summary: ml | hashtags: #y")]]

def samplePost1 : Post :=
  ⟨"P1", "reel", "ai", "#x", "music", 10, 2, 3, 4, 100, 5 / 2⟩

def samplePost2 : Post :=
  ⟨"P2", "reel", "ml", "#y", "voice", 20, 4, 5, 6, 200, 7 / 2⟩

def sampleDf : List Post := [samplePost1, samplePost2]

def sampleStats : List (Metric × Stats) :=
  numericColumns.map (fun m => (m, statsOf (column sampleDf "reel" m)))

def samplePerf : List (Metric × ℚ) :=
  numericColumns.map (fun m =>
    (m, pyRound2 ((m.get samplePost1 / meanQ (column sampleDf "reel" m) - 1) * 100)))

/-! ## Claim theorems -/

/-- C1: for every CSV read by `upload_csv_data_to_db`, the list of documents
passed to the single bulk `insert_many` call has exactly as many documents as
the CSV has rows — one document per dataframe row, all inserted. -/
theorem C1_csv_rows_eq_inserted (df docs : List Dict)
    (h : Effect.insertMany docs ∈ (uploadCsvDataToDb df).2) :
    docs.length = df.length := by
  unfold uploadCsvDataToDb at h
  cases hb : buildDocuments df with
  | none => rw [hb] at h; simp at h
  | some ds =>
      rw [hb] at h
      simp at h
      subst h
      exact buildDocuments_length df docs hb

theorem C1_witness :
    Effect.insertMany sampleVecDocs ∈ (uploadCsvDataToDb sampleCsv).2 ∧
      sampleVecDocs.length = sampleCsv.length :=
  ⟨by decide, C1_csv_rows_eq_inserted sampleCsv sampleVecDocs (by decide)⟩

/-- C2: the document built from a CSV row that has `topic` and
`hashtags_used` columns and no `$vectorize` column is exactly the row's
fields, in order and unaltered, plus the one extra key `$vectorize` holding
`"summary: {topic} | hashtags: {hashtags_used}"`. -/
theorem C2_document_adds_vectorize (row : Dict) (t hs : String)
    (ht : row.lookup "topic" = some t)
    (hh : row.lookup "hashtags_used" = some hs)
    (hv : row.lookup "$vectorize" = none) :
    buildDocument row =
      some (row ++ [("$vectorize", "summary: " ++ t ++ " | hashtags: " ++ hs)]) := by
  simp [buildDocument, setKey, ht, hh, hv]

theorem C2_witness :
    sampleRow.lookup "topic" = some "ai" ∧
      sampleRow.lookup "hashtags_used" = some "#x" ∧
      sampleRow.lookup "$vectorize" = none ∧
      buildDocument sampleRow =
        some (sampleRow ++ [("$vectorize", "summary: ai | hashtags: #x")]) :=
  ⟨by decide, by decide, by decide,
   C2_document_adds_vectorize sampleRow "ai" "#x" (by decide) (by decide) (by decide)⟩

/-- C4 counterexample: the claim says both seeding scripts perform the full
connect → create-collection → bulk-load flow, but running `DbConnect.py`
(successful connection, any database name) performs no collection-creation
call and no insert call at all. -/
theorem C4_counterexample :
    (dbConnectScript none "socialens").2.filter isCreateEff = [] ∧
      (dbConnectScript none "socialens").2.filter isInsertEff = [] := by
  decide

/-- C4 (amended): `Astradb.py`'s `main` performs the full flow — one
`get_database` on the hard-coded endpoint, one vector-enabled collection
creation, one bulk insert of all the CSV's documents — while `DbConnect.py`
only connects: it issues `get_database` on the same endpoint but never
creates a collection or inserts documents. -/
theorem C4_amended_flows (df docs : List Dict) (nm : String)
    (h : buildDocuments df = some docs) :
    (astradbMain none nm df).2.filter isGetDbEff = [Effect.getDatabase astradbEndpoint] ∧
      (astradbMain none nm df).2.filter isCreateEff =
        [Effect.newCollection "social_media_collection" "cosine" "nvidia" "NV-Embed-QA"] ∧
      (astradbMain none nm df).2.filter isInsertEff = [Effect.insertMany docs] ∧
      (dbConnectScript none nm).2.filter isGetDbEff = [Effect.getDatabase dbConnectEndpoint] ∧
      (dbConnectScript none nm).2.filter isCreateEff = [] ∧
      (dbConnectScript none nm).2.filter isInsertEff = [] := by
  have hu : uploadCsvDataToDb df =
      (Except.ok (),
       [Effect.insertMany docs,
        Effect.printMsg
          ("Inserted " ++ toString docs.length ++ " items into the collection.")]) := by
    unfold uploadCsvDataToDb
    rw [h]
  have hc : astradbConnect ⟨none, none⟩ none nm =
      (Except.ok astradbEndpoint,
       [Effect.connectClient astradbToken, Effect.getDatabase astradbEndpoint,
        Effect.printMsg ("Connected to database: " ++ nm)]) := rfl
  refine ⟨?_, ?_, ?_, rfl, rfl, rfl⟩ <;>
    simp [astradbMain, hc, createCollection, hu,
      isGetDbEff, isCreateEff, isInsertEff, List.filter_append]

theorem C4_witness :
    buildDocuments sampleCsv = some sampleVecDocs ∧
      ((astradbMain none "db" sampleCsv).2.filter isGetDbEff =
          [Effect.getDatabase astradbEndpoint] ∧
        (astradbMain none "db" sampleCsv).2.filter isCreateEff =
          [Effect.newCollection "social_media_collection" "cosine" "nvidia" "NV-Embed-QA"] ∧
        (astradbMain none "db" sampleCsv).2.filter isInsertEff =
          [Effect.insertMany sampleVecDocs] ∧
        (dbConnectScript none "db").2.filter isGetDbEff =
          [Effect.getDatabase dbConnectEndpoint] ∧
        (dbConnectScript none "db").2.filter isCreateEff = [] ∧
        (dbConnectScript none "db").2.filter isInsertEff = []) :=
  ⟨by decide, C4_amended_flows sampleCsv sampleVecDocs "db" (by decide)⟩

/-- C5 counterexample: the claim says `generate_analysis` prints the error
and re-raises, but on an LLM failure it returns normally (`Except.ok none`,
i.e. Python `None`): no exception propagates. -/
theorem C5_counterexample :
    (generateAnalysis (some "boom") "ok").1 = Except.ok none ∧
      isExceptErr (generateAnalysis (some "boom") "ok").1 = false ∧
      (generateAnalysis (some "boom") "ok").2 =
        [Effect.stError "Error generating analysis: boom"] :=
  ⟨rfl, rfl, rfl⟩

/-- C5 (amended): `connect_to_database` in `Astradb.py` prints the error and
re-raises when `get_database` fails, while `generate_analysis` in the
dashboard surfaces the error with `st.error` and returns `None` instead of
re-raising. -/
theorem C5_amended_error_handling (env : Env) (e n r : String) :
    (astradbConnect env (some e) n).1 = Except.error (PyError.externalError e) ∧
      (astradbConnect env (some e) n).2 =
        [Effect.connectClient astradbToken, Effect.getDatabase astradbEndpoint,
         Effect.printMsg ("Error connecting to database: " ++ e)] ∧
      (generateAnalysis (some e) r).1 = Except.ok none ∧
      (generateAnalysis (some e) r).2 =
        [Effect.stError ("Error generating analysis: " ++ e)] :=
  ⟨rfl, rfl, rfl, rfl⟩

/-- C6: both `connect_to_database` functions ignore the process environment —
for any two environments the whole result (value and effect trace) is
identical — and the token handed to `DataAPIClient` and the endpoint handed
to `get_database` are always the hard-coded literals. -/
theorem C6_params_hardcoded (env₁ env₂ : Env) (f : Option String) (n : String) :
    astradbConnect env₁ f n = astradbConnect env₂ f n ∧
      dbConnectConnect env₁ f n = dbConnectConnect env₂ f n ∧
      (astradbConnect env₁ f n).2.filter isConnectEff =
        [Effect.connectClient astradbToken] ∧
      (astradbConnect env₁ f n).2.filter isGetDbEff =
        [Effect.getDatabase astradbEndpoint] ∧
      (dbConnectConnect env₁ f n).2.filter isConnectEff =
        [Effect.connectClient dbConnectToken] ∧
      (dbConnectConnect env₁ f n).2.filter isGetDbEff =
        [Effect.getDatabase dbConnectEndpoint] := by
  refine ⟨rfl, rfl, ?_, ?_, ?_, ?_⟩ <;> cases f <;> rfl

/-- C7: `create_collection` issues exactly one collection-creation API call,
configured with cosine similarity and the nvidia `NV-Embed-QA` embedding
service, and returns the created collection. -/
theorem C7_single_create_call (name : String) :
    (createCollection name).2.filter isCreateEff =
        [Effect.newCollection name "cosine" "nvidia" "NV-Embed-QA"] ∧
      (createCollection name).1 = name :=
  ⟨rfl, rfl⟩

/-- C10: in both scripts' `connect_to_database` the `RuntimeError` branch is
unreachable — the hard-coded token and endpoint are non-empty, so the guard
is always false and no run ever produces the `RuntimeError`. -/
theorem C10_runtime_error_unreachable (env : Env) (f : Option String) (n : String) :
    isRuntimeErr (astradbConnect env f n).1 = false ∧
      isRuntimeErr (dbConnectConnect env f n).1 = false := by
  cases f <;> exact ⟨rfl, rfl⟩

/-- The body of `get_post_metrics` with its local bindings inlined. -/
theorem getPostMetrics_eq (df : List Post) (pid ptype : String) :
    getPostMetrics df pid ptype =
      (match (df.filter (fun r => r.post_type == ptype)).filter
          (fun r => r.post_id == actualId pid) with
       | [] => none
       | post :: _ =>
           some (post,
             numericColumns.map (fun m =>
               (m, statsOf ((df.filter (fun r => r.post_type == ptype)).map m.get))),
             numericColumns.map (fun m =>
               (m, pyRound2 ((m.get post /
                 (statsOf ((df.filter (fun r => r.post_type == ptype)).map m.get)).mean
                   - 1) * 100))))) := rfl

/-- Splitting at the first `" ("` recovers everything before an appended
`" ("` marker, provided the prefix itself contains no `" ("`. -/
theorem beforeParen_append (xs ys : List Char) (h : hasSpaceParen xs = false) :
    beforeParen (xs ++ ' ' :: '(' :: ys) = xs := by
  induction xs with
  | nil => simp [beforeParen]
  | cons c rest ih =>
      simp only [hasSpaceParen] at h
      by_cases hc : c = ' ' ∧ rest.head? = some '('
      · rw [if_pos hc] at h; cases h
      · rw [if_neg hc] at h
        have hcond : ¬(c = ' ' ∧ (rest ++ ' ' :: '(' :: ys).head? = some '(') := by
          cases rest with
          | nil => simp
          | cons d rest' => simpa using hc
        show (if c = ' ' ∧ (rest ++ ' ' :: '(' :: ys).head? = some '(' then []
              else c :: beforeParen (rest ++ ' ' :: '(' :: ys)) = c :: rest
        rw [if_neg hcond, ih h]

/-- C3: whenever `get_post_metrics` returns data for a selected post, the
statistics are exactly the mean, median, min and max of each of the six
numeric columns over all rows of the selected post type, and each
percentage-vs-average entry is `round((post_value / mean_of_type - 1) * 100,
2)`. -/
theorem C3_metrics (df : List Post) (pid ptype : String)
    (post : Post) (stats : List (Metric × Stats)) (perf : List (Metric × ℚ))
    (h : getPostMetrics df pid ptype = some (post, stats, perf)) :
    stats = numericColumns.map (fun m =>
      (m, ⟨meanQ (column df ptype m), medianQ (column df ptype m),
           minQ (column df ptype m), maxQ (column df ptype m)⟩)) ∧
    perf = numericColumns.map (fun m =>
      (m, pyRound2 ((m.get post / meanQ (column df ptype m) - 1) * 100))) := by
  rw [getPostMetrics_eq] at h
  split at h
  · exact absurd h (by simp)
  · simp only [Option.some.injEq, Prod.mk.injEq] at h
    obtain ⟨h1, h2, h3⟩ := h
    subst h1; subst h2; subst h3
    exact ⟨by simp [statsOf, column], by simp [statsOf, column]⟩

theorem C3_witness :
    getPostMetrics sampleDf "P1 (ai)" "reel" =
        some (samplePost1, sampleStats, samplePerf) ∧
      (sampleStats = numericColumns.map (fun m =>
          (m, ⟨meanQ (column sampleDf "reel" m), medianQ (column sampleDf "reel" m),
               minQ (column sampleDf "reel" m), maxQ (column sampleDf "reel" m)⟩)) ∧
        samplePerf = numericColumns.map (fun m =>
          (m, pyRound2 ((m.get samplePost1 / meanQ (column sampleDf "reel" m) - 1) * 100)))) :=
  ⟨rfl,
   C3_metrics sampleDf "P1 (ai)" "reel" samplePost1 sampleStats samplePerf rfl⟩

/-- C8: `get_post_metrics` returns `(None, None, None)` exactly when no row
of the loaded CSV has both the selected post type and the post id obtained
from the display string by splitting at the first `" ("`; when a matching row
exists it returns post, stats and performance data. -/
theorem C8_none_iff_no_match (df : List Post) (pid ptype : String) :
    getPostMetrics df pid ptype = none ↔
      ¬ ∃ r ∈ df, r.post_type = ptype ∧ r.post_id = actualId pid := by
  rw [getPostMetrics_eq, List.filter_filter]
  constructor
  · intro h hex
    obtain ⟨r, hr, h1, h2⟩ := hex
    cases hm : df.filter (fun a => (a.post_id == actualId pid) && (a.post_type == ptype)) with
    | nil =>
        have := (List.filter_eq_nil_iff).1 hm r hr
        simp [h1, h2] at this
    | cons p rest => rw [hm] at h; exact absurd h (by simp)
  · intro h
    cases hm : df.filter (fun a => (a.post_id == actualId pid) && (a.post_type == ptype)) with
    | nil => rfl
    | cons p rest =>
        exfalso
        have hp : p ∈ df.filter (fun a => (a.post_id == actualId pid) && (a.post_type == ptype)) := by
          rw [hm]; exact List.mem_cons_self p rest
        rw [List.mem_filter] at hp
        have hp2 : p.post_id = actualId pid ∧ p.post_type = ptype := by simpa using hp.2
        exact h ⟨p, hp.1, hp2.2, hp2.1⟩

/-- C9: for a CSV row whose `post_id` contains no `" ("`, parsing the display
string `f"{post_id} ({topic})"` produced by `get_available_posts` with the
`split(" (")[0]` step of `get_post_metrics` recovers exactly that row's
`post_id`. -/
theorem C9_roundtrip (r : Post) (h : hasSpaceParen r.post_id.data = false) :
    actualId (displayString r) = r.post_id := by
  unfold displayString actualId
  have hdata : (r.post_id ++ " (" ++ r.topic ++ ")").data
      = r.post_id.data ++ ' ' :: '(' :: (r.topic.data ++ [')']) := by
    simp [String.data_append]
  rw [hdata, beforeParen_append _ _ h]

theorem C9_witness :
    hasSpaceParen samplePost1.post_id.data = false ∧
      actualId (displayString samplePost1) = samplePost1.post_id :=
  ⟨by decide, C9_roundtrip samplePost1 (by decide)⟩

end Socialens
